import Mathlib

/-!
Verification of the mail-ingestion/notification pipeline of this repository
(`src/api` of the project): the token/cursor store (`tokenStore.js`), the
classification store (`gcsService.js`), the classifier dispatcher
(`modelService.js`), the SSE broadcaster (`emails.js`) and the Pub/Sub
webhook with its background processors (`pubsub.js`).

The JavaScript is embedded shallowly:

* JS values stored in the per-user session object are modelled by `JsVal`
  (`undef` models `undefined`/absent, with JS truthiness via `jsTruthy`).
* JS objects and `Map`s are association lists (`alGet`/`alSet` mirror
  property read / property assignment; `objMerge` mirrors spread
  `\x7b...existing, ...tokens\x7d`).
* External effects (Gmail history/message API, the python classifier
  subprocess, Firestore, clock) are oracles packaged in environment
  structures; `none` results model thrown exceptions.
* Base64 transport of message bodies is elided: `data` fields hold the
  decoded text (the decoding is a bijection applied at the boundary).
* The HTTP response of the webhook is the status code sent first.
-/

/-- A JavaScript value as stored by the pipeline: `undefined`, a string, or a
(natural) number.  Gmail history ids are numeric; tokens are strings. -/
inductive JsVal where
  | undef : JsVal
  | str : String → JsVal
  | num : Nat → JsVal
deriving DecidableEq, Repr

/-- JS truthiness for `JsVal` (`undefined`, `""` and `0` are falsy). -/
def jsTruthy : JsVal → Bool
  | JsVal.undef => false
  | JsVal.str s => if s = "" then false else true
  | JsVal.num n => if n = 0 then false else true

/-- Association-list read: models JS property access `o[k]` / `Map.get`. -/
def alGet {α : Type} : List (String × α) → String → Option α
  | [], _ => none
  | (k, v) :: rest, key => if k = key then some v else alGet rest key

/-- Association-list write: models JS property assignment / `Map.set`
(replace the binding if the key is present, else append it). -/
def alSet {α : Type} : List (String × α) → String → α → List (String × α)
  | [], key, v => [(key, v)]
  | (k, w) :: rest, key, v =>
      if k = key then (key, v) :: rest else (k, w) :: alSet rest key v

/-- A JS object held in the token store (fields of the per-user session). -/
abbrev JsObj : Type := List (String × JsVal)

/-- Spread merge of two JS objects, as in `\x7b ...existing, ...tokens \x7d`:
every field of `updates` is assigned into `base`, left to right. -/
def objMerge (base updates : JsObj) : JsObj :=
  updates.foldl (fun acc kv => alSet acc kv.1 kv.2) base

/-- The in-memory token store of `tokenStore.js`: one JS object per user. -/
abbrev TokenMap : Type := List (String × JsObj)

/-- `tokenStore.js` `storeToken`: merge the new token fields into the
existing entry (`\x7b ...existing, ...tokens \x7d`) and store it. -/
def storeToken (ts : TokenMap) (userEmail : String) (tokens : JsObj) : TokenMap :=
  alSet ts userEmail (objMerge ((alGet ts userEmail).getD []) tokens)

/-- `tokenStore.js` `getStoredToken`. -/
def getStoredToken (ts : TokenMap) (userEmail : String) : Option JsObj :=
  alGet ts userEmail

/-- `tokenStore.js` `storeLastHistoryId`: `existing.lastHistoryId = historyId`
on the (possibly fresh) entry, then store it back. -/
def storeLastHistoryId (ts : TokenMap) (userEmail : String) (historyId : JsVal) : TokenMap :=
  alSet ts userEmail (alSet ((alGet ts userEmail).getD []) "lastHistoryId" historyId)

/-- `tokenStore.js` `getLastHistoryId`: `data?.lastHistoryId || null`
(a falsy stored value reads back as `null`). -/
def getLastHistoryId (ts : TokenMap) (userEmail : String) : Option JsVal :=
  match (alGet ts userEmail).bind (fun o => alGet o "lastHistoryId") with
  | some v => if jsTruthy v then some v else none
  | none => none

/-- The raw `lastHistoryId` field of a user's entry (specification-side read,
without the truthiness filtering of `getLastHistoryId`). -/
def storedCursor (ts : TokenMap) (userEmail : String) : Option JsVal :=
  (alGet ts userEmail).bind (fun o => alGet o "lastHistoryId")

/-- `tokenData?.access_token || null`, the credential read done by the
webhook before dispatching background processing. -/
def accessTokenOf (ts : TokenMap) (userEmail : String) : Option JsVal :=
  match (alGet ts userEmail).bind (fun o => alGet o "access_token") with
  | some v => if jsTruthy v then some v else none
  | none => none

/-- One record of the per-user classification list kept in
`user-classifications/<user>/emails.json` (`gcsService.js`).  Only the `id`
is inspected by the code; all other fields are opaque. -/
structure EmailRecord where
  id : String
  fields : JsObj
deriving DecidableEq, Repr

/-- `gcsService.js` `saveEmailClassification`, list transformation part:
`findIndex` on equal id, update in place if found, else `unshift`; then
`splice(100)` if the length exceeds 100. -/
def saveEmailClassification (emails : List EmailRecord) (emailData : EmailRecord) :
    List EmailRecord :=
  let merged :=
    match emails.findIdx? (fun e => e.id == emailData.id) with
    | some i => emails.set i emailData
    | none => emailData :: emails
  if 100 < merged.length then merged.take 100 else merged

/-- One MIME part of a Gmail message (`payload.parts[i]`); `data` holds the
decoded text of `part.body.data` when present. -/
structure GmailPart where
  mimeType : String
  data : Option String
deriving DecidableEq, Repr

/-- A Gmail message as consumed by `pubsub.js`: the fields the code reads.
`headers` models `payload.headers` (name/value pairs), `bodyData` the decoded
`payload.body.data`. -/
structure GmailMessage where
  threadId : Option String
  internalDate : Option String
  snippet : Option String
  headers : List (String × String)
  parts : Option (List GmailPart)
  bodyData : Option String
deriving DecidableEq, Repr

/-- `headers.find(h => h.name === n)?.value`. -/
def headerValue (headers : List (String × String)) (name : String) : Option String :=
  (headers.find? (fun h => h.1 == name)).map (fun h => h.2)

/-- Result of `extractGmailMetadata` in `pubsub.js`. -/
structure GmailMetadata where
  sender : String
  subject : String
  date : String
deriving DecidableEq, Repr

/-- `pubsub.js` `extractGmailMetadata`. -/
def extractGmailMetadata (message : GmailMessage) : GmailMetadata :=
  { sender := (headerValue message.headers "From").getD "Unknown"
    subject := (headerValue message.headers "Subject").getD "No Subject"
    date := (headerValue message.headers "Date").getD "" }

/-- `pubsub.js` `extractBodyText`: first `text/plain` part with truthy data;
otherwise the top-level body data, defaulting to the empty string. -/
def extractBodyText (message : GmailMessage) : String :=
  match message.parts with
  | some parts =>
      match parts.find? (fun p => p.mimeType == "text/plain" && !(p.data.getD "" == "")) with
      | some p => p.data.getD ""
      | none => ""
  | none => message.bodyData.getD ""

/-- `pubsub.js` `parseGmailMessage`: a plain-text rendering of the message
(same body-extraction loop as `extractBodyText`, inlined in the source). -/
def parseGmailMessage (message : GmailMessage) : String :=
  let subject := (headerValue message.headers "Subject").getD "No Subject"
  let sender := (headerValue message.headers "From").getD "Unknown"
  let date := (headerValue message.headers "Date").getD ""
  let body :=
    match message.parts with
    | some parts =>
        match parts.find? (fun p => p.mimeType == "text/plain" && !(p.data.getD "" == "")) with
        | some p => p.data.getD ""
        | none => ""
    | none => message.bodyData.getD ""
  "From: " ++ sender ++ "\nSubject: " ++ subject ++ "\nDate: " ++ date ++ "\n\n" ++ body

/-- The `earlyEmailData` object broadcast as a `new_email` event. -/
structure EarlyEmail where
  id : String
  threadId : String
  receivedAt : String
  sender : String
  subject : String
  snippet : String
  body : String
  timestamp : String
deriving DecidableEq, Repr

/-- An SSE event payload written to a client stream (`emails.js`). -/
inductive SseEvent where
  | newEmail : EarlyEmail → SseEvent
  | classificationUpdate : List EmailRecord → SseEvent
  | connected : SseEvent
deriving DecidableEq, Repr

/-- A live SSE connection: its identity and whether `res.write` succeeds. -/
structure Conn where
  cid : Nat
  writeOk : Bool
deriving DecidableEq, Repr

/-- The mutable state touched by the pipeline: the token/cursor store, the
GCS classification store, the Firestore raw-email collection, the SSE client
map (`sseClients`), and the log of events delivered to connections. -/
structure PipelineState where
  tokens : TokenMap
  gcs : List (String × List EmailRecord)
  firestore : List (String × String)
  sse : List (String × List Conn)
  delivered : List (Nat × SseEvent)
deriving DecidableEq, Repr

/-- The external world seen by `processGmailNotification`: the Gmail history
and message APIs (`none` = the call throws), whether a Firestore write
succeeds (its failure is swallowed inside `storeEmailInFirestore`), the
`new Date(parseInt(d)).toISOString()` conversion (`none` = it throws, e.g. on
a missing `internalDate`), and the current time. -/
structure PipelineEnv where
  historyQuery : JsVal → Option (List String)
  fetchMessage : String → Option GmailMessage
  firestoreOk : String → Bool
  isoTime : Option String → Option String
  nowIso : String

/-- `emails.js` `notifyEmailUpdate`: write the event to every connection of
that user; a throwing `client.write` is caught and only logged, so the
client map itself is left untouched. -/
def notifyEmailUpdate (s : PipelineState) (userEmail : String) (ev : SseEvent) :
    PipelineState :=
  match alGet s.sse userEmail with
  | none => s
  | some clients =>
      { s with delivered :=
          s.delivered ++ clients.filterMap (fun c => if c.writeOk then some (c.cid, ev) else none) }

/-- Body of the per-message `try` block in `processGmailNotification`: fetch
the full message (a throw skips the message), store the raw email in
Firestore (internal catch), parse it, and broadcast the early `new_email`
event.  A throwing date conversion aborts the message after the Firestore
write but before the broadcast. -/
def processOneMessage (env : PipelineEnv) (userEmail : String) (s : PipelineState)
    (messageId : String) : PipelineState :=
  match env.fetchMessage messageId with
  | none => s
  | some message =>
      let s1 := if env.firestoreOk messageId then
          { s with firestore := s.firestore ++ [(userEmail, messageId)] }
        else s
      let _emailContent := parseGmailMessage message
      let metadata := extractGmailMetadata message
      let bodyText := extractBodyText message
      match env.isoTime message.internalDate with
      | none => s1
      | some receivedAt =>
          let earlyEmailData : EarlyEmail :=
            { id := messageId
              threadId := message.threadId.getD ""
              receivedAt := receivedAt
              sender := metadata.sender
              subject := metadata.subject
              snippet := message.snippet.getD ""
              body := bodyText
              timestamp := env.nowIso }
          notifyEmailUpdate s1 userEmail (SseEvent.newEmail earlyEmailData)

/-- `pubsub.js` `processGmailNotification`: read the stored baseline cursor
(falling back to the notification's cursor only when none is stored), query
the history API from it, process each returned message id (failures skipped),
and finally store the notification's cursor.  An exception from the history
query is caught by the outer `catch`, leaving the state unchanged. -/
def processGmailNotification (env : PipelineEnv) (userEmail : String)
    (notificationHistoryId : JsVal) (s : PipelineState) : PipelineState :=
  let lastProcessedHistoryId :=
    (getLastHistoryId s.tokens userEmail).getD notificationHistoryId
  match env.historyQuery lastProcessedHistoryId with
  | none => s
  | some messageIds =>
      if messageIds.isEmpty then
        { s with tokens := storeLastHistoryId s.tokens userEmail notificationHistoryId }
      else
        let s1 := messageIds.foldl (processOneMessage env userEmail) s
        { s1 with tokens := storeLastHistoryId s1.tokens userEmail notificationHistoryId }

/-- The user extracted from a GCS object name by the regex
`^user-classifications\/(.+)\/emails\.json$` in `processGCSNotification`. -/
def gcsFileUser (fileName : String) : Option String :=
  let pre := "user-classifications/"
  let suf := "/emails.json"
  if fileName.startsWith pre && fileName.endsWith suf
      && decide (pre.length + suf.length < fileName.length) then
    some ((fileName.drop pre.length).dropRight suf.length)
  else none

/-- `gcsService.js` `getEmailClassifications`: the stored list for the user,
`[]` when the file is missing or unreadable. -/
def getEmailClassifications (s : PipelineState) (userEmail : String) : List EmailRecord :=
  (alGet s.gcs userEmail).getD []

/-- `pubsub.js` `processGCSNotification`: on a classification-file change,
re-read the user's list and broadcast it as a `classification_update`. -/
def processGCSNotification (fileName : String) (s : PipelineState) : PipelineState :=
  match gcsFileUser fileName with
  | none => s
  | some userEmail =>
      notifyEmailUpdate s userEmail
        (SseEvent.classificationUpdate (getEmailClassifications s userEmail))

/-- The decoded Pub/Sub `messageData` envelope: the fields the webhook reads
(`undef` models an absent field). -/
structure MessageData where
  kind : JsVal
  name : JsVal
  bucket : JsVal
  emailAddress : JsVal
  historyId : JsVal
deriving DecidableEq, Repr

/-- The webhook request body: `message`/`message.data` absent, a payload
whose base64/JSON decoding throws, or a decoded envelope. -/
inductive ReqBody where
  | noMessage : ReqBody
  | badData : ReqBody
  | decoded : MessageData → ReqBody
deriving DecidableEq, Repr

/-- `pubsub.js` `handlePubSubWebhook`: the HTTP status sent to the provider
together with the state after the (background) processing it dispatched.
Missing `message.data` gets 400; a decode failure is caught and gets 500;
every decoded envelope is acknowledged with 200 before processing: GCS
storage-object envelopes go to `processGCSNotification`, envelopes without a
truthy user identity are dropped, users without a stored access token are
skipped, and the rest go to `processGmailNotification`. -/
def handlePubSubWebhook (env : PipelineEnv) (body : ReqBody) (s : PipelineState) :
    Nat × PipelineState :=
  match body with
  | ReqBody.noMessage => (400, s)
  | ReqBody.badData => (500, s)
  | ReqBody.decoded d =>
      if d.kind = JsVal.str "storage#object" ∧ jsTruthy d.name ∧ jsTruthy d.bucket then
        match d.name with
        | JsVal.str fileName => (200, processGCSNotification fileName s)
        | _ => (200, s)
      else if jsTruthy d.emailAddress = false then
        (200, s)
      else
        match d.emailAddress with
        | JsVal.str userEmail =>
            match accessTokenOf s.tokens userEmail with
            | none => (200, s)
            | some _ => (200, processGmailNotification env userEmail d.historyId s)
        | _ => (200, s)

/-- A classification result object as produced by `classifyEmail` in
`modelService.js`.  `indicators`/`recommended_action` are `Option`s because
the malformed-output fallback object lacks those properties. -/
structure ModelOutput where
  classification : String
  confidence : Rat
  primary_reason : String
  indicators : Option (List String)
  recommended_action : Option String
deriving DecidableEq, Repr

/-- The external world seen by one `classifyEmail` call: whether the temp
blob save succeeds, the subprocess result (`none` = `execAsync` throws,
`some stdout` its standard output), the `JSON.parse` oracle on the extracted
text, and whether the temp blob delete succeeds. -/
structure ClassifierEnv where
  saveOk : Bool
  execOut : Option String
  parseJson : String → Option ModelOutput
  deleteOk : Bool

/-- The greedy regex extraction `stdout.match(...)` on the brace-delimited
block: the substring from the first open brace (with some close brace after
it) to the last close brace, or `none` when no such span exists. -/
def extractJson (s : String) : Option String :=
  let cs := s.toList
  match cs.findIdx? (fun c => c == '{'), cs.reverse.findIdx? (fun c => c == '}') with
  | some i, some jr =>
      let j := cs.length - 1 - jr
      if i < j then some (String.mk ((cs.drop i).take (j - i + 1))) else none
  | _, _ => none

/-- The `try` block of `classifyEmail`: save the temp blob, run the model
subprocess, extract and parse the verdict (falling back to an `unknown`
object built from the raw output), delete the temp blob, return the
verdict.  `none` models a thrown exception reaching the outer `catch`. -/
def classifyEmailRun (env : ClassifierEnv) (emailContent : String) : Option ModelOutput :=
  if env.saveOk = false then none
  else
    match env.execOut with
    | none => none
    | some stdout =>
        let classification :=
          match extractJson stdout with
          | some jsonText =>
              match env.parseJson jsonText with
              | some c => c
              | none =>
                  { classification := "unknown"
                    confidence := 0.5
                    primary_reason := stdout.take 200
                    indicators := none
                    recommended_action := none }
          | none =>
              { classification := "unknown"
                confidence := 0.5
                primary_reason := stdout.take 200
                indicators := none
                recommended_action := none }
        if env.deleteOk = false then none else some classification

/-- `modelService.js` `classifyEmail`: the `try` block, with the `catch`
returning the degraded `pending` object on any thrown error. -/
def classifyEmail (env : ClassifierEnv) (emailContent : String) : ModelOutput :=
  match classifyEmailRun env emailContent with
  | some c => c
  | none =>
      { classification := "pending"
        confidence := 0
        primary_reason := "Classification pending - model unavailable"
        indicators := some []
        recommended_action := some "allow" }

/-- The empty pipeline state (fresh process, nothing stored). -/
def emptyState : PipelineState :=
  { tokens := [], gcs := [], firestore := [], sse := [], delivered := [] }

/-- Environment whose history queries always return an empty batch
(used to drive zero-result notification processings). -/
def envDrained : PipelineEnv :=
  { historyQuery := fun _ => some []
    fetchMessage := fun _ => none
    firestoreOk := fun _ => true
    isoTime := fun x => x
    nowIso := "2025-11-23T17:42:54.819Z" }

/-- A concrete fetched Gmail message (id 201 in scenario A of the spec). -/
def msgScenario201 : GmailMessage :=
  { threadId := some "t201"
    internalDate := some "1763919774805"
    snippet := some "hello there"
    headers := [("From", "alice@example.com"), ("Subject", "Hello")]
    parts := none
    bodyData := some "hello body" }

/-- A second concrete fetched Gmail message (id 202 in scenario A). -/
def msgScenario202 : GmailMessage :=
  { threadId := some "t202"
    internalDate := some "1763919774806"
    snippet := some "second"
    headers := [("From", "bob@example.com"), ("Subject", "Second")]
    parts := some [ { mimeType := "text/plain", data := some "second body" } ]
    bodyData := none }

/-- Scenario-A environment: the history query from the stored baseline 100
returns ids 201 and 202, both fetchable. -/
def envScenarioA : PipelineEnv :=
  { historyQuery := fun c => if c = JsVal.num 100 then some ["201", "202"] else none
    fetchMessage := fun mid =>
      if mid = "201" then some msgScenario201
      else if mid = "202" then some msgScenario202
      else none
    firestoreOk := fun _ => true
    isoTime := fun x => x
    nowIso := "2025-11-23T17:42:54.819Z" }

/-- Scenario-A initial state: user `u` watched at baseline cursor 100, with a
stored access token, one open SSE connection and an empty classification
store. -/
def stateScenarioA : PipelineState :=
  { tokens := [("u", [("access_token", JsVal.str "tok"), ("lastHistoryId", JsVal.num 100)])]
    gcs := []
    firestore := []
    sse := [("u", [ { cid := 1, writeOk := true } ])]
    delivered := [] }

/-- Stale-baseline environment: the provider rejects the stored cursor 5
(the query throws) but would accept the notification's cursor 7. -/
def envStale : PipelineEnv :=
  { historyQuery := fun c => if c = JsVal.num 7 then some ["m1"] else none
    fetchMessage := fun _ => some msgScenario201
    firestoreOk := fun _ => true
    isoTime := fun x => x
    nowIso := "2025-11-23T17:42:54.819Z" }

/-- Stale-baseline initial state: user `u` has stored baseline cursor 5. -/
def stateStale : PipelineState :=
  { tokens := [("u", [("lastHistoryId", JsVal.num 5)])]
    gcs := []
    firestore := []
    sse := [("u", [ { cid := 1, writeOk := true } ])]
    delivered := [] }

/-- Broadcast fixture: user `u` has a connection whose write throws and a
healthy one; user `v` has a healthy connection. -/
def stateTwoConns : PipelineState :=
  { tokens := [], gcs := [], firestore := []
    sse := [("u", [ { cid := 1, writeOk := false }, { cid := 2, writeOk := true } ]),
            ("v", [ { cid := 3, writeOk := true } ])]
    delivered := [] }

/-- Classifier environment whose subprocess output contains no JSON object
(no verdict can be parsed from it). -/
def envNoVerdict : ClassifierEnv :=
  { saveOk := true
    execOut := some "Traceback: model crashed"
    parseJson := fun _ => none
    deleteOk := true }

/-- Classifier environment whose subprocess invocation throws
(model unreachable / timeout). -/
def envExecFails : ClassifierEnv :=
  { saveOk := true
    execOut := none
    parseJson := fun _ => none
    deleteOk := true }

/-- 101 classification records with pairwise distinct ids, for exercising
the 100-record cap. -/
def records101 : List EmailRecord :=
  (List.range 101).map (fun n => { id := toString n, fields := [] })

/-- A record broadcast early as `pending` (scenario C of the spec). -/
def recPending : EmailRecord :=
  { id := "m1", fields := [("category", JsVal.str "pending")] }

/-- The later resolved verdict for the same message id. -/
def recResolved : EmailRecord :=
  { id := "m1", fields := [("category", JsVal.str "scam")] }

/-- An unrelated record for another message id. -/
def recOther : EmailRecord := { id := "m2", fields := [] }

/-- Token-store fixture for the frame theorem: an entry with a credential
and a cursor. -/
def tsFixture : TokenMap :=
  [("u", [("access_token", JsVal.str "tokA"), ("lastHistoryId", JsVal.num 3)])]

/-- A refreshed-credential update object (no `lastHistoryId` field). -/
def refreshedTokens : JsObj := [("access_token", JsVal.str "tokB")]

theorem alGet_alSet_self {α : Type} (m : List (String × α)) (k : String) (v : α) :
    alGet (alSet m k v) k = some v := by
  induction m with
  | nil => simp [alSet, alGet]
  | cons hd tl ih =>
      obtain ⟨k1, v1⟩ := hd
      by_cases h : k1 = k
      · simp [alSet, h, alGet]
      · simp [alSet, h, alGet, ih]

theorem alGet_alSet_ne {α : Type} (m : List (String × α)) (k k2 : String) (v : α)
    (h : k ≠ k2) : alGet (alSet m k v) k2 = alGet m k2 := by
  induction m with
  | nil => simp [alSet, alGet, h]
  | cons hd tl ih =>
      obtain ⟨k1, v1⟩ := hd
      by_cases h1 : k1 = k
      · subst h1
        simp [alSet, alGet, h]
      · simp [alSet, h1, alGet, ih]

theorem alGet_objMerge_notMem (base updates : JsObj) (k : String)
    (h : k ∉ updates.map Prod.fst) :
    alGet (objMerge base updates) k = alGet base k := by
  induction updates generalizing base with
  | nil => rfl
  | cons kv rest ih =>
      simp only [List.map_cons, List.mem_cons, not_or] at h
      have step : objMerge base (kv :: rest) = objMerge (alSet base kv.1 kv.2) rest := rfl
      rw [step, ih _ h.2, alGet_alSet_ne _ _ _ _ (fun he => h.1 he.symm)]

theorem alGet_objMerge_mem (base updates : JsObj) (k : String) (v : JsVal)
    (hnd : (updates.map Prod.fst).Nodup) (hmem : (k, v) ∈ updates) :
    alGet (objMerge base updates) k = some v := by
  induction updates generalizing base with
  | nil => cases hmem
  | cons kv rest ih =>
      have step : objMerge base (kv :: rest) = objMerge (alSet base kv.1 kv.2) rest := rfl
      simp only [List.map_cons, List.nodup_cons] at hnd
      rcases List.mem_cons.mp hmem with heq | hrest
      · subst heq
        rw [step, alGet_objMerge_notMem _ _ _ hnd.1, alGet_alSet_self]
      · exact step ▸ ih _ hnd.2 hrest

theorem storedCursor_storeLastHistoryId (ts : TokenMap) (u : String) (h : JsVal) :
    storedCursor (storeLastHistoryId ts u h) u = some h := by
  unfold storedCursor storeLastHistoryId
  rw [alGet_alSet_self]
  simp [alGet_alSet_self]

theorem notifyEmailUpdate_tokens (s : PipelineState) (u : String) (ev : SseEvent) :
    (notifyEmailUpdate s u ev).tokens = s.tokens := by
  unfold notifyEmailUpdate
  cases h : alGet s.sse u <;> simp [h]

theorem notifyEmailUpdate_gcs (s : PipelineState) (u : String) (ev : SseEvent) :
    (notifyEmailUpdate s u ev).gcs = s.gcs := by
  unfold notifyEmailUpdate
  cases h : alGet s.sse u <;> simp [h]

theorem notifyEmailUpdate_sse (s : PipelineState) (u : String) (ev : SseEvent) :
    (notifyEmailUpdate s u ev).sse = s.sse := by
  unfold notifyEmailUpdate
  cases h : alGet s.sse u <;> simp [h]

theorem processOneMessage_tokens (env : PipelineEnv) (u : String) (s : PipelineState)
    (mid : String) : (processOneMessage env u s mid).tokens = s.tokens := by
  simp only [processOneMessage]
  split
  · rfl
  · split
    · split <;> rfl
    · rw [notifyEmailUpdate_tokens]
      split <;> rfl

theorem processOneMessage_gcs (env : PipelineEnv) (u : String) (s : PipelineState)
    (mid : String) : (processOneMessage env u s mid).gcs = s.gcs := by
  simp only [processOneMessage]
  split
  · rfl
  · split
    · split <;> rfl
    · rw [notifyEmailUpdate_gcs]
      split <;> rfl

theorem foldl_processOneMessage_tokens (env : PipelineEnv) (u : String)
    (ids : List String) (s : PipelineState) :
    (ids.foldl (processOneMessage env u) s).tokens = s.tokens := by
  induction ids generalizing s with
  | nil => rfl
  | cons i rest ih => rw [List.foldl_cons, ih, processOneMessage_tokens]

theorem foldl_processOneMessage_gcs (env : PipelineEnv) (u : String)
    (ids : List String) (s : PipelineState) :
    (ids.foldl (processOneMessage env u) s).gcs = s.gcs := by
  induction ids generalizing s with
  | nil => rfl
  | cons i rest ih => rw [List.foldl_cons, ih, processOneMessage_gcs]

/-- C1: whenever the history query of `processGmailNotification` returns a
batch (empty or not, and regardless of which per-message fetches, Firestore
writes or date conversions fail), the stored last-processed cursor of that
user afterwards equals the notification's cursor: per-message failures are
skipped and never block the cursor write. -/
theorem processGmailNotification_writes_notification_cursor
    (env : PipelineEnv) (userEmail : String) (notificationHistoryId : JsVal)
    (s : PipelineState) (messageIds : List String)
    (h : env.historyQuery ((getLastHistoryId s.tokens userEmail).getD notificationHistoryId)
        = some messageIds) :
    storedCursor (processGmailNotification env userEmail notificationHistoryId s).tokens
      userEmail = some notificationHistoryId := by
  simp only [processGmailNotification, h]
  split
  · exact storedCursor_storeLastHistoryId _ _ _
  · exact storedCursor_storeLastHistoryId _ _ _

/-- Witness for C1 at a concrete zero-result batch. -/
theorem processGmailNotification_writes_notification_cursor_witness :
    storedCursor (processGmailNotification envDrained "u" (JsVal.num 105) emptyState).tokens
      "u" = some (JsVal.num 105) :=
  processGmailNotification_writes_notification_cursor envDrained "u" (JsVal.num 105)
    emptyState [] rfl

/-- C2 counterexample: processing a notification with cursor 110 and then a
redelivered stale notification with cursor 105 (both batches complete)
leaves the stored cursor at 105 — the pipeline replaced the stored cursor
110 by the smaller value 105, so the stored cursor is not monotonically
non-decreasing. -/
theorem cursor_regression_counterexample :
    storedCursor (processGmailNotification envDrained "u" (JsVal.num 110) emptyState).tokens
        "u" = some (JsVal.num 110) ∧
    storedCursor (processGmailNotification envDrained "u" (JsVal.num 105)
        (processGmailNotification envDrained "u" (JsVal.num 110) emptyState)).tokens
        "u" = some (JsVal.num 105) ∧
    105 < 110 := by
  refine ⟨rfl, rfl, by norm_num⟩

/-- C2 amended: a processing step either leaves the stored cursor unchanged
(history query threw) or overwrites it with the notification's cursor, so the
cursor is non-decreasing provided notifications are processed in
non-decreasing cursor order; an out-of-order (stale, redelivered)
notification regresses it. -/
theorem cursor_monotone_when_notifications_ordered
    (env : PipelineEnv) (userEmail : String) (c h : Nat) (s : PipelineState)
    (h1 : storedCursor s.tokens userEmail = some (JsVal.num c))
    (h2 : c ≤ h) :
    ∃ c2, storedCursor (processGmailNotification env userEmail (JsVal.num h) s).tokens
        userEmail = some (JsVal.num c2) ∧ c ≤ c2 := by
  cases hq : env.historyQuery
      ((getLastHistoryId s.tokens userEmail).getD (JsVal.num h)) with
  | none =>
      simp only [processGmailNotification, hq]
      exact ⟨c, h1, le_refl c⟩
  | some ids =>
      simp only [processGmailNotification, hq]
      refine ⟨h, ?_, h2⟩
      split
      · exact storedCursor_storeLastHistoryId _ _ _
      · exact storedCursor_storeLastHistoryId _ _ _

/-- Witness for the amended C2 at scenario A (cursor 100, notification 105). -/
theorem cursor_monotone_when_notifications_ordered_witness :
    ∃ c2, storedCursor (processGmailNotification envScenarioA "u" (JsVal.num 105)
        stateScenarioA).tokens "u" = some (JsVal.num c2) ∧ 100 ≤ c2 :=
  cursor_monotone_when_notifications_ordered envScenarioA "u" 100 105 stateScenarioA
    rfl (by norm_num)

/-- C6 counterexample: user `u` has stored baseline cursor 5, the provider
rejects a history query from 5 (it throws, e.g. cursor too old) but would
accept the notification's cursor 7 — yet `processGmailNotification` leaves
the state completely unchanged: no fallback history query with the
notification's cursor is made, the batch is simply aborted. -/
theorem stale_baseline_counterexample :
    getLastHistoryId stateStale.tokens "u" = some (JsVal.num 5) ∧
    envStale.historyQuery (JsVal.num 5) = none ∧
    envStale.historyQuery (JsVal.num 7) = some ["m1"] ∧
    processGmailNotification envStale "u" (JsVal.num 7) stateStale = stateStale := by
  refine ⟨rfl, by decide, rfl, by decide⟩

/-- C6 amended: the fallback to the notification's own cursor exists only
when no (truthy) baseline cursor is stored for the user; when a stored
baseline is present and the provider rejects the query on it, the batch is
aborted with the state unchanged (no fallback query, no cursor write). -/
theorem stale_baseline_fallback_behavior (env : PipelineEnv) (userEmail : String)
    (notificationHistoryId : JsVal) (s : PipelineState) :
    (∀ L, getLastHistoryId s.tokens userEmail = some L →
        env.historyQuery L = none →
        processGmailNotification env userEmail notificationHistoryId s = s) ∧
    (∀ messageIds, getLastHistoryId s.tokens userEmail = none →
        env.historyQuery notificationHistoryId = some messageIds →
        storedCursor (processGmailNotification env userEmail notificationHistoryId s).tokens
          userEmail = some notificationHistoryId) := by
  constructor
  · intro L h1 h2
    simp only [processGmailNotification, h1, Option.getD_some, h2]
  · intro messageIds h1 h2
    simp only [processGmailNotification, h1, Option.getD_none, h2]
    split
    · exact storedCursor_storeLastHistoryId _ _ _
    · exact storedCursor_storeLastHistoryId _ _ _

/-- Witness for the amended C6 at the concrete stale-baseline scenario. -/
theorem stale_baseline_fallback_behavior_witness :
    processGmailNotification envStale "u" (JsVal.num 7) stateStale = stateStale :=
  (stale_baseline_fallback_behavior envStale "u" (JsVal.num 7) stateStale).1
    (JsVal.num 5) rfl (by decide)

/-- Every decoded envelope is acknowledged with status 200 (helper for the
webhook theorems). -/
theorem webhook_decoded_status (env : PipelineEnv) (s : PipelineState) (d : MessageData) :
    (handlePubSubWebhook env (ReqBody.decoded d) s).1 = 200 := by
  simp only [handlePubSubWebhook]
  split
  · split <;> rfl
  · split
    · rfl
    · split
      · split <;> rfl
      · rfl

/-- C9 counterexample: a payload with no `message.data` is answered with
status 400 and a payload whose decoding throws with status 500 — malformed
payloads are *not* acknowledged with a success status (the provider will
retry them). -/
theorem webhook_rejects_malformed_counterexample :
    (handlePubSubWebhook envDrained ReqBody.noMessage emptyState).1 = 400 ∧
    (handlePubSubWebhook envDrained ReqBody.badData emptyState).1 = 500 ∧
    (400 : Nat) ≠ 200 ∧ (500 : Nat) ≠ 200 :=
  ⟨rfl, rfl, by norm_num, by norm_num⟩

/-- C9 amended: the webhook answers 400 to envelopes without `message.data`
and 500 to undecodable ones; every decodable envelope — including
unaddressed ones, which are dropped — is acknowledged with 200, and the
status depends only on the request body, never on the stored state or on
any downstream processing outcome. -/
theorem webhook_ack_policy (body : ReqBody) :
    (∀ env s, body = ReqBody.noMessage → (handlePubSubWebhook env body s).1 = 400) ∧
    (∀ env s, body = ReqBody.badData → (handlePubSubWebhook env body s).1 = 500) ∧
    (∀ env s d, body = ReqBody.decoded d → (handlePubSubWebhook env body s).1 = 200) ∧
    (∀ e1 e2 s1 s2, (handlePubSubWebhook e1 body s1).1 = (handlePubSubWebhook e2 body s2).1) := by
  refine ⟨?_, ?_, ?_, ?_⟩
  · intro env s hb
    subst hb
    rfl
  · intro env s hb
    subst hb
    rfl
  · intro env s d hb
    subst hb
    exact webhook_decoded_status env s d
  · intro e1 e2 s1 s2
    cases body with
    | noMessage => rfl
    | badData => rfl
    | decoded d => rw [webhook_decoded_status, webhook_decoded_status]

/-- Witness for the amended C9 on a concrete unaddressed envelope. -/
theorem webhook_ack_policy_witness :
    (handlePubSubWebhook envDrained
        (ReqBody.decoded
          { kind := JsVal.undef, name := JsVal.undef, bucket := JsVal.undef,
            emailAddress := JsVal.undef, historyId := JsVal.undef })
        emptyState).1 = 200 :=
  (webhook_ack_policy _).2.2.1 envDrained emptyState _ rfl

/-- C10: `storeToken` with an update object that has no `lastHistoryId`
field (the shape every caller uses: credential fields only) merges the new
fields into the entry and leaves the stored cursor untouched, and
`storeLastHistoryId` sets exactly the cursor field and leaves every other
field — in particular the access credential — untouched. -/
theorem tokenStore_frame (ts : TokenMap) (u : String) (toks : JsObj) (h : JsVal)
    (hnd : (toks.map Prod.fst).Nodup)
    (hlh : "lastHistoryId" ∉ toks.map Prod.fst) :
    storedCursor (storeToken ts u toks) u = storedCursor ts u ∧
    (∀ k v, (k, v) ∈ toks →
        alGet ((alGet (storeToken ts u toks) u).getD []) k = some v) ∧
    (∀ k, k ≠ "lastHistoryId" →
        alGet ((alGet (storeLastHistoryId ts u h) u).getD []) k
          = alGet ((alGet ts u).getD []) k) ∧
    storedCursor (storeLastHistoryId ts u h) u = some h := by
  refine ⟨?_, ?_, ?_, storedCursor_storeLastHistoryId ts u h⟩
  · unfold storedCursor storeToken
    rw [alGet_alSet_self]
    cases hu : alGet ts u with
    | none => simp [alGet_objMerge_notMem _ _ _ hlh, alGet]
    | some o => simp [alGet_objMerge_notMem _ _ _ hlh]
  · intro k v hkv
    unfold storeToken
    rw [alGet_alSet_self]
    exact alGet_objMerge_mem _ _ _ _ hnd hkv
  · intro k hk
    unfold storeLastHistoryId
    rw [alGet_alSet_self]
    exact alGet_alSet_ne _ _ _ _ (fun he => hk he.symm)

/-- Witness for C10: refreshing the credential keeps the stored cursor, and
advancing the cursor keeps the credential. -/
theorem tokenStore_frame_witness :
    storedCursor (storeToken tsFixture "u" refreshedTokens) "u" = storedCursor tsFixture "u" ∧
    alGet ((alGet (storeToken tsFixture "u" refreshedTokens) "u").getD []) "access_token"
      = some (JsVal.str "tokB") ∧
    alGet ((alGet (storeLastHistoryId tsFixture "u" (JsVal.num 9)) "u").getD []) "access_token"
      = alGet ((alGet tsFixture "u").getD []) "access_token" ∧
    storedCursor (storeLastHistoryId tsFixture "u" (JsVal.num 9)) "u" = some (JsVal.num 9) :=
  ⟨(tokenStore_frame tsFixture "u" refreshedTokens (JsVal.num 9) (by decide) (by decide)).1,
   (tokenStore_frame tsFixture "u" refreshedTokens (JsVal.num 9) (by decide) (by decide)).2.1
     "access_token" (JsVal.str "tokB") (by decide),
   (tokenStore_frame tsFixture "u" refreshedTokens (JsVal.num 9) (by decide) (by decide)).2.2.1
     "access_token" (by decide),
   (tokenStore_frame tsFixture "u" refreshedTokens (JsVal.num 9) (by decide) (by decide)).2.2.2⟩

theorem set_getElem?_eq {α : Type} (l : List α) (i : Nat) (a : α) (h : l[i]? = some a) :
    l.set i a = l := by
  induction l generalizing i with
  | nil => simp at h
  | cons hd tl ih =>
      cases i with
      | zero =>
          simp only [List.getElem?_cons_zero, Option.some.injEq] at h
          rw [List.set_cons_zero, h]
      | succ n =>
          simp only [List.getElem?_cons_succ] at h
          rw [List.set_cons_succ, ih n h]

theorem save_not_found (l : List EmailRecord) (e : EmailRecord)
    (h : e.id ∉ l.map (fun r => r.id)) :
    saveEmailClassification l e = (e :: l).take 100 := by
  have hnone : l.findIdx? (fun r => r.id == e.id) = none := by
    rw [List.findIdx?_eq_none_iff]
    intro x hx
    simp only [beq_eq_false_iff_ne, ne_eq]
    intro hxe
    exact h (hxe ▸ List.mem_map_of_mem (fun r => r.id) hx)
  simp only [saveEmailClassification, hnone]
  by_cases hlen : 100 < (e :: l).length
  · rw [if_pos hlen]
  · rw [if_neg hlen, List.take_of_length_le (by omega)]

theorem save_of_findIdx (l : List EmailRecord) (e : EmailRecord) (i : Nat)
    (hfi : l.findIdx? (fun r => r.id == e.id) = some i) (hlen : l.length ≤ 100) :
    saveEmailClassification l e = l.set i e := by
  simp only [saveEmailClassification, hfi]
  rw [if_neg (by rw [List.length_set]; omega)]

theorem save_found (l : List EmailRecord) (e : EmailRecord)
    (hmem : e.id ∈ l.map (fun r => r.id)) (hlen : l.length ≤ 100) :
    ∃ i, l.findIdx? (fun r => r.id == e.id) = some i ∧ i < l.length ∧
      (∃ x, l[i]? = some x ∧ x.id = e.id) ∧
      saveEmailClassification l e = l.set i e := by
  cases hfi : l.findIdx? (fun r => r.id == e.id) with
  | none =>
      exfalso
      rw [List.findIdx?_eq_none_iff] at hfi
      obtain ⟨x, hx, hxid⟩ := List.mem_map.mp hmem
      have hfalse := hfi x hx
      rw [hxid] at hfalse
      simp at hfalse
  | some i =>
      obtain ⟨hi, hp, hmin⟩ := List.findIdx?_eq_some_iff_getElem.mp hfi
      refine ⟨i, rfl, hi, ⟨l[i], List.getElem?_eq_getElem hi, by simpa using hp⟩,
        save_of_findIdx l e i hfi hlen⟩

theorem save_preserves_inv (l : List EmailRecord) (e : EmailRecord)
    (hnd : (l.map (fun r => r.id)).Nodup) (hlen : l.length ≤ 100) :
    ((saveEmailClassification l e).map (fun r => r.id)).Nodup ∧
    (saveEmailClassification l e).length ≤ 100 := by
  by_cases hmem : e.id ∈ l.map (fun r => r.id)
  · obtain ⟨i, hfi, hi, ⟨x, hx, hxid⟩, hsave⟩ := save_found l e hmem hlen
    rw [hsave]
    have hset : (l.map (fun r => r.id)).set i e.id = l.map (fun r => r.id) := by
      apply set_getElem?_eq
      rw [List.getElem?_map, hx]
      simp [hxid]
    constructor
    · rw [List.map_set, hset]
      exact hnd
    · rw [List.length_set]
      exact hlen
  · rw [save_not_found l e hmem]
    constructor
    · rw [List.map_take]
      exact ((List.take_sublist _ _).nodup (by rw [List.map_cons, List.nodup_cons]; exact ⟨hmem, hnd⟩))
    · rw [List.length_take]
      omega

theorem foldl_save_inv (es : List EmailRecord) :
    ((es.foldl saveEmailClassification []).map (fun r => r.id)).Nodup ∧
    (es.foldl saveEmailClassification []).length ≤ 100 := by
  induction es using List.reverseRecOn with
  | nil => exact ⟨List.nodup_nil, by simp⟩
  | append_singleton es e ih =>
      rw [List.foldl_append, List.foldl_cons, List.foldl_nil]
      exact save_preserves_inv _ e ih.1 ih.2

theorem save_idempotent (l : List EmailRecord) (e : EmailRecord)
    (hnd : (l.map (fun r => r.id)).Nodup) (hlen : l.length ≤ 100) :
    saveEmailClassification (saveEmailClassification l e) e = saveEmailClassification l e := by
  by_cases hmem : e.id ∈ l.map (fun r => r.id)
  · obtain ⟨i, hfi, hi, ⟨x, hx, hxid⟩, hsave⟩ := save_found l e hmem hlen
    obtain ⟨hi2, hp, hmin⟩ := List.findIdx?_eq_some_iff_getElem.mp hfi
    rw [hsave]
    have hfi2 : (l.set i e).findIdx? (fun r => r.id == e.id) = some i := by
      rw [List.findIdx?_eq_some_iff_getElem]
      refine ⟨by rw [List.length_set]; exact hi, ?_, ?_⟩
      · rw [List.getElem_set_self]
        simp
      · intro j hj
        have hjl : j < l.length := lt_trans hj hi
        have hne : ¬(i = j) := by omega
        rw [List.getElem_set_ne hne]
        exact hmin j hj
    rw [save_of_findIdx _ e i hfi2 (by rw [List.length_set]; exact hlen), List.set_set]
  · rw [save_not_found l e hmem]
    have htake : (e :: l).take 100 = e :: l.take 99 := by
      rw [show (100 : Nat) = 99 + 1 from rfl, List.take_succ_cons]
    rw [htake]
    have hfi2 : (e :: l.take 99).findIdx? (fun r => r.id == e.id) = some 0 := by
      rw [List.findIdx?_cons]
      simp
    rw [save_of_findIdx _ e 0 hfi2 (by simp only [List.length_cons, List.length_take]; omega),
      List.set_cons_zero]

/-- C3: starting from an empty store, any sequence of
`saveEmailClassification` calls yields a list whose message ids are pairwise
distinct; saving a record whose id is already present updates that record in
place (same length, all other entries untouched); and re-saving the same
record is idempotent, so duplicate deliveries leave the store unchanged. -/
theorem classification_store_merge_by_id (es : List EmailRecord) (e : EmailRecord)
    (l : List EmailRecord) (hl : l = es.foldl saveEmailClassification []) :
    ((l.map (fun r => r.id)).Nodup) ∧
    (e.id ∈ l.map (fun r => r.id) →
        (saveEmailClassification l e).length = l.length ∧
        ∃ i, i < l.length ∧ (∃ x, l[i]? = some x ∧ x.id = e.id) ∧
          saveEmailClassification l e = l.set i e) ∧
    saveEmailClassification (saveEmailClassification l e) e = saveEmailClassification l e := by
  subst hl
  obtain ⟨hnd, hlen⟩ := foldl_save_inv es
  refine ⟨hnd, ?_, save_idempotent _ e hnd hlen⟩
  intro hmem
  obtain ⟨i, hfi, hi, hx, hsave⟩ := save_found _ e hmem hlen
  exact ⟨by rw [hsave, List.length_set], i, hi, hx, hsave⟩

/-- Witness for C3: a store built from two saves, then the pending record
for `m1` is resolved in place and a duplicate delivery changes nothing
(scenario C of the spec). -/
theorem classification_store_merge_by_id_witness :
    (saveEmailClassification ([recOther, recPending].foldl saveEmailClassification [])
        recResolved).length
      = ([recOther, recPending].foldl saveEmailClassification []).length ∧
    saveEmailClassification
        (saveEmailClassification ([recOther, recPending].foldl saveEmailClassification [])
          recResolved) recResolved
      = saveEmailClassification ([recOther, recPending].foldl saveEmailClassification [])
          recResolved :=
  ⟨((classification_store_merge_by_id [recOther, recPending] recResolved _ rfl).2.1
      (by decide)).1,
   (classification_store_merge_by_id [recOther, recPending] recResolved _ rfl).2.2⟩

theorem foldl_save_eq_reverse_take (es : List EmailRecord)
    (h : (es.map (fun r => r.id)).Nodup) :
    es.foldl saveEmailClassification [] = es.reverse.take 100 := by
  induction es using List.reverseRecOn with
  | nil => rfl
  | append_singleton es e ih =>
      rw [List.map_append, List.nodup_append] at h
      obtain ⟨hnd, -, hdisj⟩ := h
      have hnotmem_es : e.id ∉ es.map (fun r => r.id) := by
        intro hmem
        exact hdisj hmem (by simp)
      rw [List.foldl_append, List.foldl_cons, List.foldl_nil, ih hnd]
      have hnotmem : e.id ∉ (es.reverse.take 100).map (fun r => r.id) := by
        intro hmem
        apply hnotmem_es
        rw [List.map_take, List.map_reverse] at hmem
        exact List.mem_reverse.mp (List.take_subset _ _ hmem)
      rw [save_not_found _ _ hnotmem, List.reverse_append]
      simp only [List.reverse_cons, List.reverse_nil, List.nil_append, List.singleton_append]
      rw [show (100 : Nat) = 99 + 1 from rfl, List.take_succ_cons, List.take_succ_cons,
        List.take_take]
      norm_num

/-- C7: after appending any sequence of at least 100 records with pairwise
distinct ids to an empty store, exactly 100 records remain and they are the
100 most recently appended ones in newest-first order (the store equals the
reversed append sequence truncated to 100). -/
theorem classification_store_cap (es : List EmailRecord)
    (h1 : (es.map (fun r => r.id)).Nodup) (h2 : 100 ≤ es.length) :
    es.foldl saveEmailClassification [] = es.reverse.take 100 ∧
    (es.foldl saveEmailClassification []).length = 100 := by
  have heq := foldl_save_eq_reverse_take es h1
  refine ⟨heq, ?_⟩
  rw [heq, List.length_take, List.length_reverse]
  omega

/-- Witness for C7 on 101 concrete distinct-id records. -/
theorem classification_store_cap_witness :
    (records101.foldl saveEmailClassification []).length = 100 :=
  (classification_store_cap records101 (by decide) (by decide)).2

/-- C4 counterexample: when the model subprocess runs but its output contains
no parseable verdict, `classifyEmail` returns `unknown` with confidence 0.5
(the first 200 characters of the raw output as reason), not the claimed
`pending`/0.0/"classification unavailable" record; and even the error-path
record's rationale string differs from the claimed one. -/
theorem classifier_degraded_record_counterexample :
    (classifyEmail envNoVerdict "mail").classification = "unknown" ∧
    (classifyEmail envNoVerdict "mail").confidence = 0.5 ∧
    ¬((classifyEmail envNoVerdict "mail").classification = "pending" ∧
      (classifyEmail envNoVerdict "mail").confidence = 0 ∧
      (classifyEmail envNoVerdict "mail").primary_reason = "classification unavailable") ∧
    (classifyEmail envExecFails "mail").primary_reason
      = "Classification pending - model unavailable" ∧
    "Classification pending - model unavailable" ≠ "classification unavailable" := by
  refine ⟨rfl, rfl, ?_, rfl, by decide⟩
  intro hcontra
  have h1 : (classifyEmail envNoVerdict "mail").classification = "unknown" := rfl
  rw [h1] at hcontra
  exact absurd hcontra.1 (by decide)

/-- C4 amended: `classifyEmail` never propagates a failure to its caller.
On a thrown invocation error (temp-blob save, subprocess, or temp-blob
delete) it returns the degraded record with category `pending`, confidence
0.0 and rationale "Classification pending - model unavailable"; when the
subprocess succeeds but no verdict can be parsed from its output it instead
returns category `unknown` with confidence 0.5 and the output prefix as
rationale. -/
theorem classifier_never_propagates (env : ClassifierEnv) (emailContent : String) :
    (env.saveOk = false ∨ env.execOut = none ∨ env.deleteOk = false →
      classifyEmail env emailContent =
        { classification := "pending", confidence := 0,
          primary_reason := "Classification pending - model unavailable",
          indicators := some [], recommended_action := some "allow" }) ∧
    (∀ stdout, env.saveOk = true → env.deleteOk = true → env.execOut = some stdout →
      (∀ t, extractJson stdout = some t → env.parseJson t = none) →
      classifyEmail env emailContent =
        { classification := "unknown", confidence := 0.5,
          primary_reason := stdout.take 200, indicators := none,
          recommended_action := none }) := by
  constructor
  · intro hfail
    simp only [classifyEmail, classifyEmailRun]
    rcases hfail with h1 | h2 | h3
    · simp [h1]
    · by_cases hs : env.saveOk = false
      · simp [hs]
      · simp [hs, h2]
    · by_cases hs : env.saveOk = false
      · simp [hs]
      · cases he : env.execOut with
        | none => simp [hs, he]
        | some out => simp [hs, he, h3]
  · intro stdout hs hd he hp
    simp only [classifyEmail, classifyEmailRun, hs, he, hd]
    cases hx : extractJson stdout with
    | none => simp [hx]
    | some t => simp [hx, hp t hx]

/-- Witness for the amended C4 at a concrete subprocess failure. -/
theorem classifier_never_propagates_witness :
    classifyEmail envExecFails "mail" =
      { classification := "pending", confidence := 0,
        primary_reason := "Classification pending - model unavailable",
        indicators := some [], recommended_action := some "allow" } :=
  (classifier_never_propagates envExecFails "mail").1 (Or.inr (Or.inl rfl))

/-- C5 (bug in the code): `processGmailNotification` never touches the
classification store — for every environment and state the store is
unchanged.  In the concrete scenario-A run (history returns ids 201 and 202,
both fetched, both broadcast as `new_email`, cursor advanced to 105) the
store stays empty: the fetched messages are never forwarded to
`classifyEmail`/`saveEmailClassification` (both are imported by `pubsub.js`
but never called), so no record — not even a `pending` one — ever appears. -/
theorem incremental_sync_never_reaches_classifier :
    (∀ (env : PipelineEnv) (userEmail : String) (notificationHistoryId : JsVal)
        (s : PipelineState),
        (processGmailNotification env userEmail notificationHistoryId s).gcs = s.gcs) ∧
    ((processGmailNotification envScenarioA "u" (JsVal.num 105) stateScenarioA).gcs = [] ∧
      getEmailClassifications
        (processGmailNotification envScenarioA "u" (JsVal.num 105) stateScenarioA) "u" = [] ∧
      storedCursor (processGmailNotification envScenarioA "u" (JsVal.num 105)
        stateScenarioA).tokens "u" = some (JsVal.num 105) ∧
      (processGmailNotification envScenarioA "u" (JsVal.num 105)
        stateScenarioA).delivered.length = 2) := by
  constructor
  · intro env u h s
    cases hq : env.historyQuery ((getLastHistoryId s.tokens u).getD h) with
    | none => simp only [processGmailNotification, hq]
    | some ids =>
        simp only [processGmailNotification, hq]
        split
        · rfl
        · exact foldl_processOneMessage_gcs env u ids s
  · exact ⟨by decide, by decide, by decide, by decide⟩

/-- C8 counterexample: user `u` has a connection (cid 1) whose write throws
and a healthy one (cid 2).  `notifyEmailUpdate` delivers the event to cid 2
only, but it leaves the client map exactly as it was: the failing connection
cid 1 is *not* removed from the active set (its removal happens only through
the connection's own close/error handlers, not through publish). -/
theorem broadcast_no_removal_counterexample :
    alGet stateTwoConns.sse "u"
      = some [ { cid := 1, writeOk := false }, { cid := 2, writeOk := true } ] ∧
    (notifyEmailUpdate stateTwoConns "u" (SseEvent.classificationUpdate [])).sse
      = stateTwoConns.sse ∧
    (notifyEmailUpdate stateTwoConns "u" (SseEvent.classificationUpdate [])).delivered
      = [(2, SseEvent.classificationUpdate [])] := by
  exact ⟨rfl, rfl, rfl⟩

/-- C8 amended: `notifyEmailUpdate` attempts the write on every connection
registered for the user and delivers to exactly those whose write succeeds
(one failing write is caught and does not block the others), delivers to no
connection of any other user, and leaves all state — in particular the
client map, so also the failing connection — unchanged. -/
theorem broadcast_fanout (s : PipelineState) (userEmail : String) (ev : SseEvent) :
    (notifyEmailUpdate s userEmail ev).sse = s.sse ∧
    (notifyEmailUpdate s userEmail ev).tokens = s.tokens ∧
    (notifyEmailUpdate s userEmail ev).gcs = s.gcs ∧
    (∀ c, c ∈ (alGet s.sse userEmail).getD [] → c.writeOk = true →
        (c.cid, ev) ∈ (notifyEmailUpdate s userEmail ev).delivered) ∧
    (∀ d, d ∈ (notifyEmailUpdate s userEmail ev).delivered →
        d ∈ s.delivered ∨
        ∃ c, c ∈ (alGet s.sse userEmail).getD [] ∧ c.writeOk = true ∧ d = (c.cid, ev)) := by
  refine ⟨notifyEmailUpdate_sse s userEmail ev, notifyEmailUpdate_tokens s userEmail ev,
    notifyEmailUpdate_gcs s userEmail ev, ?_, ?_⟩
  · intro c hc hw
    unfold notifyEmailUpdate
    cases hm : alGet s.sse userEmail with
    | none => simp [hm] at hc
    | some clients =>
        simp only [hm, Option.getD_some] at hc
        simp only [List.mem_append]
        right
        rw [List.mem_filterMap]
        exact ⟨c, hc, by simp [hw]⟩
  · intro d hd
    unfold notifyEmailUpdate at hd
    cases hm : alGet s.sse userEmail with
    | none =>
        rw [hm] at hd
        exact Or.inl hd
    | some clients =>
        rw [hm] at hd
        simp only [List.mem_append] at hd
        rcases hd with hd | hd
        · exact Or.inl hd
        · right
          rw [List.mem_filterMap] at hd
          obtain ⟨c, hc, hcd⟩ := hd
          by_cases hw : c.writeOk = true
        
          · rw [if_pos hw] at hcd
            exact ⟨c, by simp [hm, hc], hw, (Option.some.injEq _ _).mp hcd |>.symm⟩
          · rw [if_neg hw] at hcd
            cases hcd

/-- Witness for the amended C8: the healthy connection receives the event. -/
theorem broadcast_fanout_witness :
    ((2 : Nat), SseEvent.classificationUpdate [])
      ∈ (notifyEmailUpdate stateTwoConns "u" (SseEvent.classificationUpdate [])).delivered :=
  (broadcast_fanout stateTwoConns "u" (SseEvent.classificationUpdate [])).2.2.2.1
    { cid := 2, writeOk := true } (by decide) rfl
